import Mathlib

/-!
Verification development for the metricflow column-type inference engine.

The development shallowly embeds:
* the flat `InferenceSignalType` enumeration and its `conflict` relation
  (exercised by `metricflow/test/inference/rule/test_base.py`);
* the nested two-level signal taxonomy used by the concrete rules in
  `metricflow/inference/rule/defaults.py`;
* the warehouse-context data model, `ColumnMatcherRule.process` from
  `metricflow/inference/rule/rules.py`, the concrete default rules, and the
  per-column resolution algorithm of the aggregation engine.

Definitions whose doc comment starts with `Modelled from the spec:` embed
components whose implementation file is not part of the available sources
(only tests, import sites or callers are); they follow the specification
document's description of those components.
-/

namespace Metricflow

/-- Flat signal-type enumeration, as enumerated and exercised by
`test_inference_signal_type_conflict` in `test/inference/rule/test_base.py`:
seven members (the test asserts the count), spelled as in the source,
including the `IDENTIFER` typo. -/
inductive InferenceSignalType where
  | IDENTIFER
  | PRIMARY_IDENTIFIER
  | FOREIGN_IDENTIFIER
  | DIMENSION
  | TIME_DIMENSION
  | CATEGORICAL_DIMENSION
  | MEASURE_FIELD
deriving DecidableEq, Fintype, Repr

/-- The three top-level categories of the signal-type taxonomy. -/
inductive SignalTypeCategory where
  | ID
  | DIMENSION
  | MEASURE
deriving DecidableEq, Fintype, Repr

/-- The category each flat signal type belongs to. -/
def flatCategory : InferenceSignalType → SignalTypeCategory
  | .IDENTIFER => .ID
  | .PRIMARY_IDENTIFIER => .ID
  | .FOREIGN_IDENTIFIER => .ID
  | .DIMENSION => .DIMENSION
  | .TIME_DIMENSION => .DIMENSION
  | .CATEGORICAL_DIMENSION => .DIMENSION
  | .MEASURE_FIELD => .MEASURE

/-- The generic ("unknown") member representing each category among the flat
signal types. -/
def genericMember : SignalTypeCategory → InferenceSignalType
  | .ID => .IDENTIFER
  | .DIMENSION => .DIMENSION
  | .MEASURE => .MEASURE_FIELD

/-- Modelled from the spec: `InferenceSignalType.conflict` lives in
`metricflow/inference/rule/base.py`, which is not among the available
sources; only its exhaustive unit test is. The table below lists the
compatible distinct pairs exactly as the test asserts them (a generic
category member with each specific leaf of the same category), makes every
other distinct pair conflict, and makes the relation irreflexive, as the
spec requires. -/
def conflict (a b : InferenceSignalType) : Bool :=
  match a, b with
  | .IDENTIFER, .PRIMARY_IDENTIFIER | .PRIMARY_IDENTIFIER, .IDENTIFER => false
  | .IDENTIFER, .FOREIGN_IDENTIFIER | .FOREIGN_IDENTIFIER, .IDENTIFER => false
  | .DIMENSION, .TIME_DIMENSION | .TIME_DIMENSION, .DIMENSION => false
  | .DIMENSION, .CATEGORICAL_DIMENSION | .CATEGORICAL_DIMENSION, .DIMENSION => false
  | x, y => if x = y then false else true

/-- Leaf nodes of the nested two-level signal taxonomy
(`InferenceSignalType.ID.UNKNOWN`, `ID.PRIMARY`, ... in
`metricflow/inference/models.py`), exactly the eight leaves referenced by
the concrete rules in `metricflow/inference/rule/defaults.py`. The dotted
source names are flattened with underscores. -/
inductive InferenceSignalNode where
  | ID_UNKNOWN
  | ID_PRIMARY
  | ID_UNIQUE
  | ID_FOREIGN
  | DIMENSION_TIME
  | DIMENSION_PRIMARY_TIME
  | DIMENSION_CATEGORICAL
  | MEASURE_UNKNOWN
deriving DecidableEq, Fintype, Repr

/-- Enumeration of all leaf nodes of the nested taxonomy, in source order. -/
def allSignalNodes : List InferenceSignalNode :=
  [.ID_UNKNOWN, .ID_PRIMARY, .ID_UNIQUE, .ID_FOREIGN,
   .DIMENSION_TIME, .DIMENSION_PRIMARY_TIME, .DIMENSION_CATEGORICAL,
   .MEASURE_UNKNOWN]

/-- The category each nested leaf belongs to. -/
def nodeCategory : InferenceSignalNode → SignalTypeCategory
  | .ID_UNKNOWN => .ID
  | .ID_PRIMARY => .ID
  | .ID_UNIQUE => .ID
  | .ID_FOREIGN => .ID
  | .DIMENSION_TIME => .DIMENSION
  | .DIMENSION_PRIMARY_TIME => .DIMENSION
  | .DIMENSION_CATEGORICAL => .DIMENSION
  | .MEASURE_UNKNOWN => .MEASURE

/-- Whether a nested leaf is the generic/"unknown" member of its category. -/
def isGenericNode : InferenceSignalNode → Bool
  | .ID_UNKNOWN => true
  | .MEASURE_UNKNOWN => true
  | _ => false

/-- Modelled from the spec: the conflict relation over nested leaves (the
nested model's own conflict logic lives in `metricflow/inference/models.py`,
not among the available sources). Two distinct leaves are compatible exactly
when they share a category and one of them is that category's generic
member; a leaf never conflicts with itself. -/
def nodeConflict (a b : InferenceSignalNode) : Bool :=
  if a = b then false
  else if nodeCategory a = nodeCategory b ∧ (isGenericNode a ∨ isGenericNode b) then false
  else true

/-- Column types reported by the warehouse profiler
(`InferenceColumnType` in `metricflow/inference/context/data_warehouse.py`,
as enumerated by the spec's data model and matched by the default rules). -/
inductive InferenceColumnType where
  | INTEGER
  | FLOAT
  | STRING
  | BOOLEAN
  | DATETIME
  | UNKNOWN
deriving DecidableEq, Repr

/-- Identity of a column: `(table_name, column_name)`, both case-preserved
strings (`SqlColumn` reference as used by the rules through
`props.column.table_name` / `props.column.column_name`). -/
structure ColumnReference where
  table_name : String
  column_name : String
deriving DecidableEq, Repr

/-- Per-column statistics consumed by the rules: declared type plus optional
row and distinct-row counts (either may be absent when statistics collection
was skipped or failed). -/
structure ColumnProperties where
  column : ColumnReference
  type : InferenceColumnType
  row_count : Option Nat
  distinct_row_count : Option Nat
deriving DecidableEq, Repr

/-- Modelled from the spec: per-table mapping from column to its properties
(`TableProperties` in `metricflow/inference/context/data_warehouse.py`,
not among the available sources). The Python `Dict` is embedded as an
insertion-ordered association list, matching `.items()` iteration. -/
structure TableProperties where
  columns : List (ColumnReference × ColumnProperties)
deriving DecidableEq, Repr

/-- Modelled from the spec: the immutable warehouse snapshot
(`DataWarehouseInferenceContext`), a mapping from table to
`TableProperties`; embedded as the list of per-table values, matching
`.values()` iteration. -/
structure DataWarehouseInferenceContext where
  tables : List TableProperties
deriving DecidableEq, Repr

/-- Modelled from the spec: the derived flat column mapping of the context,
built by concatenating every table's columns. -/
def DataWarehouseInferenceContext.columns (ctx : DataWarehouseInferenceContext) :
    List (ColumnReference × ColumnProperties) :=
  ctx.tables.flatMap (fun tp => tp.columns)

/-- Confidence levels of a signal, totally ordered with `FOR_SURE` highest
(`InferenceSignalConfidence` in `metricflow/inference/models.py`). -/
inductive InferenceSignalConfidence where
  | LOW
  | MEDIUM
  | FOR_SURE
deriving DecidableEq, Repr

/-- Numeric rank of a confidence level, higher means more certain. -/
def InferenceSignalConfidence.rank : InferenceSignalConfidence → Nat
  | .LOW => 0
  | .MEDIUM => 1
  | .FOR_SURE => 2

/-- Boolean comparison of confidence levels by rank. -/
def confLe (a b : InferenceSignalConfidence) : Bool :=
  a.rank ≤ b.rank

/-- One rule's output for one column (`InferenceSignal` in
`metricflow/inference/models.py`, with the fields the rules populate). -/
structure InferenceSignal where
  column : ColumnReference
  type_node : InferenceSignalNode
  confidence : InferenceSignalConfidence
  is_complimentary : Bool
  reason : String
deriving DecidableEq, Repr

/-- `ColumnMatcherRule.process` from `metricflow/inference/rule/rules.py`:
collect the columns whose properties satisfy the rule's predicate, then emit
one signal per matching column with the rule's fixed type node, confidence,
complimentary flag and reason. -/
def columnMatcherProcess (tn : InferenceSignalNode)
    (conf : InferenceSignalConfidence) (compl : Bool) (reason : String)
    (matcher : ColumnProperties → Bool)
    (warehouse : DataWarehouseInferenceContext) : List InferenceSignal :=
  let matching_columns := (warehouse.columns.filter (fun p => matcher p.2)).map Prod.fst
  matching_columns.map (fun column =>
    { column := column
      type_node := tn
      confidence := conf
      is_complimentary := compl
      reason := reason })

/-- Python's `str.lower()` restricted to its ASCII behaviour, the only part
the rules rely on. -/
def pyLower (s : String) : String :=
  String.mk (s.data.map Char.toLower)

/-- Python's `str.rstrip("s")`: remove every trailing `s` character. -/
def rstripS (s : String) : String :=
  String.mk (s.data.reverse.dropWhile (fun c => c = 's')).reverse

/-- `AnyIdentifierByNameRule.match_column`: the lowered column name ends
with `id`. -/
def anyIdentifierByNameMatch (props : ColumnProperties) : Bool :=
  (pyLower props.column.column_name).endsWith "id"

/-- `PrimaryIdentifierByNameRule.match_column`: the lowered column name is
`id`, or equals the lowered table name with trailing `s` stripped followed
by `_id` or `id`. -/
def primaryIdentifierByNameMatch (props : ColumnProperties) : Bool :=
  let col_lower := pyLower props.column.column_name
  let table_lower := rstripS (pyLower props.column.table_name)
  if col_lower = "id" then true
  else decide (col_lower = table_lower ++ "_id" ∨ col_lower = table_lower ++ "id")

/-- `UniqueIdentifierByDistinctCountRule.match_column`: Python
`props.distinct_row_count == props.row_count`, an equality of two optional
values (`None == None` evaluates to `True`). -/
def uniqueIdentifierByDistinctCountMatch (props : ColumnProperties) : Bool :=
  decide (props.distinct_row_count = props.row_count)

/-- Modelled from the spec: `LowCardinalityRatioRule.match_column`
(`metricflow/inference/rule/rules.py` in the available sources stops before
this class; only its import and subclasses are visible). Matches when both
counts are present, the row count is positive, and
`distinct_row_count / row_count <= threshold`; otherwise no match, so the
division is never reached with a zero or absent denominator. Exact rational
arithmetic stands in for Python float division. -/
def lowCardinalityRatioMatch (threshold : ℚ) (props : ColumnProperties) : Bool :=
  match props.row_count, props.distinct_row_count with
  | some rowCount, some distinctCount =>
    if rowCount = 0 then false
    else decide ((distinctCount : ℚ) / (rowCount : ℚ) ≤ threshold)
  | _, _ => false

/-- `TimeDimensionByTimeTypeRule.match_column`: the column type is
`DATETIME`. -/
def timeDimensionByTimeTypeMatch (props : ColumnProperties) : Bool :=
  props.type = InferenceColumnType.DATETIME

/-- `PrimaryTimeDimensionByNameRule.match_column`: the column name is one of
`ds`, `created_at`, `created_date`, `created_time`. -/
def primaryTimeDimensionByNameMatch (props : ColumnProperties) : Bool :=
  decide (props.column.column_name ∈ ["ds", "created_at", "created_date", "created_time"])

/-- `CategoricalDimensionByBooleanTypeRule.match_column`: the column type is
`BOOLEAN`. -/
def categoricalDimensionByBooleanTypeMatch (props : ColumnProperties) : Bool :=
  props.type = InferenceColumnType.BOOLEAN

/-- `CategoricalDimensionByStringTypeRule.match_column`: the column type is
`STRING`. -/
def categoricalDimensionByStringTypeMatch (props : ColumnProperties) : Bool :=
  props.type = InferenceColumnType.STRING

/-- `CategoricalDimensionByIntegerTypeRule.match_column`: the column type is
`INTEGER`. -/
def categoricalDimensionByIntegerTypeMatch (props : ColumnProperties) : Bool :=
  props.type = InferenceColumnType.INTEGER

/-- `MeasureByRealTypeRule.match_column`: the column type is `FLOAT`. -/
def measureByRealTypeMatch (props : ColumnProperties) : Bool :=
  props.type = InferenceColumnType.FLOAT

/-- `MeasureByIntegerTypeRule.match_column`: the column type is `INTEGER`. -/
def measureByIntegerTypeMatch (props : ColumnProperties) : Bool :=
  props.type = InferenceColumnType.INTEGER

/-- `AnyIdentifierByNameRule.process`: `ID.UNKNOWN`, `FOR_SURE`,
definitive. -/
def anyIdentifierByNameProcess : DataWarehouseInferenceContext → List InferenceSignal :=
  columnMatcherProcess .ID_UNKNOWN .FOR_SURE false "Column name ends with `id`"
    anyIdentifierByNameMatch

/-- `PrimaryIdentifierByNameRule.process`: `ID.PRIMARY`, `FOR_SURE`,
definitive. -/
def primaryIdentifierByNameProcess : DataWarehouseInferenceContext → List InferenceSignal :=
  columnMatcherProcess .ID_PRIMARY .FOR_SURE false "Column name matches `(table_name?)(_?)id`"
    primaryIdentifierByNameMatch

/-- `UniqueIdentifierByDistinctCountRule.process`: `ID.UNIQUE`, `FOR_SURE`,
complimentary. -/
def uniqueIdentifierByDistinctCountProcess : DataWarehouseInferenceContext → List InferenceSignal :=
  columnMatcherProcess .ID_UNIQUE .FOR_SURE true "The values in the column are unique"
    uniqueIdentifierByDistinctCountMatch

/-- `ForeignIdentifierByCardinalityRatioRule(threshold).process`:
`ID.FOREIGN`, `MEDIUM`, complimentary, via the low-cardinality-ratio
matcher. The match reason is the one the spec's base rule attaches to ratio
matches. -/
def foreignIdentifierByCardinalityProcess (threshold : ℚ) :
    DataWarehouseInferenceContext → List InferenceSignal :=
  columnMatcherProcess .ID_FOREIGN .MEDIUM true "Column has low cardinality"
    (lowCardinalityRatioMatch threshold)

/-- `TimeDimensionByTimeTypeRule.process`: `DIMENSION.TIME`, `FOR_SURE`,
definitive. -/
def timeDimensionByTimeTypeProcess : DataWarehouseInferenceContext → List InferenceSignal :=
  columnMatcherProcess .DIMENSION_TIME .FOR_SURE false
    "Column type is time (TIME, DATE, DATETIME, TIMESTAMP)"
    timeDimensionByTimeTypeMatch

/-- `PrimaryTimeDimensionByNameRule.process`: `DIMENSION.PRIMARY_TIME`,
`FOR_SURE`, definitive. -/
def primaryTimeDimensionByNameProcess : DataWarehouseInferenceContext → List InferenceSignal :=
  columnMatcherProcess .DIMENSION_PRIMARY_TIME .FOR_SURE false
    "Column name is either of 'ds', 'created_at', 'created_date' or 'created_time'"
    primaryTimeDimensionByNameMatch

/-- The `time_cols` list computed by
`PrimaryTimeDimensionIfOnlyTimeRule.process` for one table: the references
of the table's `DATETIME` columns, in table order. -/
def tableTimeColumns (table_props : TableProperties) : List ColumnReference :=
  (table_props.columns.filter (fun p => p.2.type = InferenceColumnType.DATETIME)).map Prod.fst

/-- The per-table body of `PrimaryTimeDimensionIfOnlyTimeRule.process`:
collect the table's `DATETIME` columns; exactly one such column yields one
`DIMENSION.PRIMARY_TIME` signal for it, any other count yields none. -/
def primaryTimeIfOnlyTimeTableSignals (table_props : TableProperties) : List InferenceSignal :=
  match tableTimeColumns table_props with
  | [col] =>
    [{ column := col
       type_node := .DIMENSION_PRIMARY_TIME
       confidence := .FOR_SURE
       is_complimentary := false
       reason := "The column is the only time column in its table" }]
  | _ => []

/-- `PrimaryTimeDimensionIfOnlyTimeRule.process`: iterate over every table
of the context, appending each table's signals. -/
def primaryTimeIfOnlyTimeProcess (warehouse : DataWarehouseInferenceContext) :
    List InferenceSignal :=
  warehouse.tables.flatMap primaryTimeIfOnlyTimeTableSignals

/-- `CategoricalDimensionByBooleanTypeRule.process`:
`DIMENSION.CATEGORICAL`, `FOR_SURE`, definitive. -/
def categoricalDimensionByBooleanTypeProcess : DataWarehouseInferenceContext → List InferenceSignal :=
  columnMatcherProcess .DIMENSION_CATEGORICAL .FOR_SURE false "Column type is BOOLEAN"
    categoricalDimensionByBooleanTypeMatch

/-- `CategoricalDimensionByStringTypeRule.process`: `DIMENSION.CATEGORICAL`,
`MEDIUM`, complimentary. -/
def categoricalDimensionByStringTypeProcess : DataWarehouseInferenceContext → List InferenceSignal :=
  columnMatcherProcess .DIMENSION_CATEGORICAL .MEDIUM true "Column type is STRING"
    categoricalDimensionByStringTypeMatch

/-- `CategoricalDimensionByIntegerTypeRule.process`:
`DIMENSION.CATEGORICAL`, `MEDIUM`, complimentary. -/
def categoricalDimensionByIntegerTypeProcess : DataWarehouseInferenceContext → List InferenceSignal :=
  columnMatcherProcess .DIMENSION_CATEGORICAL .MEDIUM true "Column type is INTEGER"
    categoricalDimensionByIntegerTypeMatch

/-- `CategoricalDimensionByCardinalityRatioRule(threshold).process`:
`DIMENSION.CATEGORICAL`, `MEDIUM`, complimentary, via the
low-cardinality-ratio matcher. -/
def categoricalDimensionByCardinalityProcess (threshold : ℚ) :
    DataWarehouseInferenceContext → List InferenceSignal :=
  columnMatcherProcess .DIMENSION_CATEGORICAL .MEDIUM true "Column has low cardinality"
    (lowCardinalityRatioMatch threshold)

/-- `MeasureByRealTypeRule.process`: `MEASURE.UNKNOWN`, `FOR_SURE`,
definitive. -/
def measureByRealTypeProcess : DataWarehouseInferenceContext → List InferenceSignal :=
  columnMatcherProcess .MEASURE_UNKNOWN .FOR_SURE false
    "Column type is real (FLOAT, DOUBLE, DOUBLE PRECISION)"
    measureByRealTypeMatch

/-- `MeasureByIntegerTypeRule.process`: `MEASURE.UNKNOWN`, `MEDIUM`,
complimentary. -/
def measureByIntegerTypeProcess : DataWarehouseInferenceContext → List InferenceSignal :=
  columnMatcherProcess .MEASURE_UNKNOWN .MEDIUM true "Column type is INTEGER"
    measureByIntegerTypeMatch

/-- The signals collected when the ruleset runner executes `DEFAULT_RULESET`
(`metricflow/inference/rule/defaults.py`, thresholds 0.4 and 0.2) over one
context, in the ruleset's source order. The runner itself is modelled from
the spec: it "executes an ordered list of rules over one context and
collects all emitted signals". -/
def defaultRulesetRun (ctx : DataWarehouseInferenceContext) : List InferenceSignal :=
  anyIdentifierByNameProcess ctx
    ++ primaryIdentifierByNameProcess ctx
    ++ uniqueIdentifierByDistinctCountProcess ctx
    ++ foreignIdentifierByCardinalityProcess (4/10) ctx
    ++ timeDimensionByTimeTypeProcess ctx
    ++ primaryTimeDimensionByNameProcess ctx
    ++ primaryTimeIfOnlyTimeProcess ctx
    ++ categoricalDimensionByBooleanTypeProcess ctx
    ++ categoricalDimensionByStringTypeProcess ctx
    ++ categoricalDimensionByIntegerTypeProcess ctx
    ++ categoricalDimensionByCardinalityProcess (2/10) ctx
    ++ measureByRealTypeProcess ctx
    ++ measureByIntegerTypeProcess ctx

/-- Depth of a nested leaf in the two-level taxonomy: the generic member of
a category sits at depth 1, every specific leaf at depth 2. Used by the
resolver to prefer the most specific compatible signal. -/
def nodeDepth (n : InferenceSignalNode) : Nat :=
  if isGenericNode n then 1 else 2

/-- Whether every pair of signals in the list is mutually compatible under
the nested conflict relation. -/
def allPairwiseCompatible (l : List InferenceSignal) : Bool :=
  l.all (fun a => l.all (fun b => !(nodeConflict a.type_node b.type_node)))

/-- The signals of the list whose confidence is greater than or equal to
every signal's confidence in the list, i.e. the top-confidence signals. -/
def highestConfidenceSignals (l : List InferenceSignal) : List InferenceSignal :=
  l.filter (fun s => l.all (fun d => confLe d.confidence s.confidence))

/-- The first signal of the list carrying a deepest (most specific) type
node, or `none` for the empty list. -/
def pickMostSpecific (l : List InferenceSignal) : Option InferenceSignal :=
  l.foldl
    (fun acc s =>
      match acc with
      | none => some s
      | some a => if nodeDepth a.type_node < nodeDepth s.type_node then some s else some a)
    none

/-- Modelled from the spec: the resolver's per-column output
(`ColumnDecision`): the resolved type node (`none` marks an unresolved
column), the confidence of the winning evidence when resolved, and the full
original signal list for audit. -/
structure ColumnDecision where
  type_node : Option InferenceSignalNode
  confidence : Option InferenceSignalConfidence
  signals : List InferenceSignal
deriving DecidableEq, Repr

/-- Modelled from the spec: the aggregation engine's per-column resolution
algorithm (the solver package is not among the available sources). Partition
the column's signals into definitive and complimentary; with no definitive
signal, the highest-confidence complimentary signal's type wins when all
complimentary signals are mutually compatible, otherwise the column is
unresolved; with definitive signals, when all are mutually compatible the
most specific wins, otherwise the top-confidence definitive signals win by
confidence ranking — and when those top-confidence signals still conflict
with each other, the column is unresolved. The returned decision always
carries the full original signal list. -/
def resolveColumn (signals : List InferenceSignal) : ColumnDecision :=
  let defs := signals.filter (fun s => !s.is_complimentary)
  let comps := signals.filter (fun s => s.is_complimentary)
  if defs.isEmpty then
    if allPairwiseCompatible comps then
      match pickMostSpecific (highestConfidenceSignals comps) with
      | some s => { type_node := some s.type_node, confidence := some s.confidence, signals := signals }
      | none => { type_node := none, confidence := none, signals := signals }
    else { type_node := none, confidence := none, signals := signals }
  else
    if allPairwiseCompatible defs then
      match pickMostSpecific defs with
      | some s => { type_node := some s.type_node, confidence := some s.confidence, signals := signals }
      | none => { type_node := none, confidence := none, signals := signals }
    else
      let topDefs := highestConfidenceSignals defs
      if allPairwiseCompatible topDefs then
        match pickMostSpecific topDefs with
        | some s => { type_node := some s.type_node, confidence := some s.confidence, signals := signals }
        | none => { type_node := none, confidence := none, signals := signals }
      else { type_node := none, confidence := none, signals := signals }

/-- C1: for distinct leaf signal types `a` and `b`, `conflict a b` is false
exactly when one of the two is the generic member of the other's category;
every other distinct pair — two specific leaves under one category, or any
pair from two different categories — conflicts. -/
theorem conflict_false_iff_generic_of_category (a b : InferenceSignalType) (h : a ≠ b) :
    conflict a b = false ↔
      (a = genericMember (flatCategory b) ∨ b = genericMember (flatCategory a)) := by
  revert h
  revert a b
  decide

/-- Witness for C1 at the concrete pair `IDENTIFER`, `PRIMARY_IDENTIFIER`. -/
theorem conflict_false_iff_generic_of_category_witness :
    conflict InferenceSignalType.IDENTIFER InferenceSignalType.PRIMARY_IDENTIFIER = false ↔
      (InferenceSignalType.IDENTIFER
          = genericMember (flatCategory InferenceSignalType.PRIMARY_IDENTIFIER) ∨
        InferenceSignalType.PRIMARY_IDENTIFIER
          = genericMember (flatCategory InferenceSignalType.IDENTIFER)) :=
  conflict_false_iff_generic_of_category _ _ (by decide)

/-- C2: the conflict relation over leaf signal types is symmetric and
irreflexive. -/
theorem conflict_symm_and_irrefl :
    (∀ a b : InferenceSignalType, conflict a b = conflict b a) ∧
      (∀ a : InferenceSignalType, conflict a a = false) := by
  decide

/-- C3: the nested leaf enumeration is closed with exactly the eight listed
leaf variants, no duplicates, and every leaf belongs to exactly one of the
three categories. -/
theorem signal_node_enumeration_closed :
    allSignalNodes.length = 8 ∧ allSignalNodes.Nodup ∧
      (∀ n : InferenceSignalNode, n ∈ allSignalNodes) ∧
      (∀ n : InferenceSignalNode, ∃! c : SignalTypeCategory, nodeCategory n = c) :=
  ⟨rfl, by decide, by decide, fun n => ⟨nodeCategory n, rfl, fun _ hy => hy.symm⟩⟩

/-- C5: evaluation of `UniqueIdentifierByDistinctCountRule.process` on a
context whose single column has both `row_count` and `distinct_row_count`
absent. The Python predicate `props.distinct_row_count == props.row_count`
evaluates `None == None` to `True`, so the rule emits an `ID.UNIQUE` signal
for the column, contradicting the requirement that a rule depending on
absent statistics emits no signal. -/
theorem unique_identifier_signal_emitted_on_absent_stats :
    uniqueIdentifierByDistinctCountProcess
        { tables := [{ columns :=
            [({ table_name := "t", column_name := "c" },
              { column := { table_name := "t", column_name := "c" }
                type := InferenceColumnType.STRING
                row_count := none
                distinct_row_count := none })] }] } =
      [{ column := { table_name := "t", column_name := "c" }
         type_node := InferenceSignalNode.ID_UNIQUE
         confidence := InferenceSignalConfidence.FOR_SURE
         is_complimentary := true
         reason := "The values in the column are unique" }] := by
  rfl

/-- C6: `LowCardinalityRatioRule` with threshold `t` matches a column
exactly when both counts are present, the row count is positive, and the
distinct/row ratio is at most `t` (boundary inclusive); a zero row count or
an absent count never matches, so no division by zero is reachable. -/
theorem low_cardinality_ratio_match_iff (t : ℚ) (props : ColumnProperties) :
    lowCardinalityRatioMatch t props = true ↔
      ∃ rc dc : Nat, props.row_count = some rc ∧ props.distinct_row_count = some dc ∧
        0 < rc ∧ (dc : ℚ) / (rc : ℚ) ≤ t := by
  rcases hr : props.row_count with _ | rc <;> rcases hd : props.distinct_row_count with _ | dc <;>
    simp only [lowCardinalityRatioMatch, hr, hd]
  · simp
  · simp
  · simp
  · by_cases h0 : rc = 0
    · subst h0
      simp
    · simp only [if_neg h0, decide_eq_true_eq]
      constructor
      · intro h
        exact ⟨rc, dc, rfl, rfl, Nat.pos_of_ne_zero h0, h⟩
      · rintro ⟨rc2, dc2, h1, h2, _, h4⟩
        injection h1 with h1
        injection h2 with h2
        subst h1
        subst h2
        exact h4

/-- Helper: the string `validity` cannot be written as any string followed
by a suffix whose last character is `d`, because its own last character is
`y`. -/
theorem validity_ne_append_last_d (x suf : String) (hs : suf.data.getLast? = some 'd') :
    ("validity" : String) ≠ x ++ suf := by
  intro h
  have h2 : ("validity" : String).data.getLast? = (x ++ suf).data.getLast? := by rw [h]
  rw [String.data_append, List.getLast?_append, hs] at h2
  simp only [Option.or_some] at h2
  exact absurd h2 (by decide)

/-- C7: `PrimaryIdentifierByNameRule.match_column` returns true exactly when
the lowered column name is `id`, or the lowered table name with trailing `s`
stripped followed by `_id` or by `id`; and a column named `validity` is
rejected whatever its table. -/
theorem primary_identifier_by_name_match_iff :
    (∀ props : ColumnProperties,
        primaryIdentifierByNameMatch props = true ↔
          (pyLower props.column.column_name = "id" ∨
            pyLower props.column.column_name
              = rstripS (pyLower props.column.table_name) ++ "_id" ∨
            pyLower props.column.column_name
              = rstripS (pyLower props.column.table_name) ++ "id")) ∧
      (∀ (tn : String) (ty : InferenceColumnType) (rc dc : Option Nat),
        primaryIdentifierByNameMatch
          { column := { table_name := tn, column_name := "validity" }
            type := ty
            row_count := rc
            distinct_row_count := dc } = false) := by
  constructor
  · intro props
    by_cases h : pyLower props.column.column_name = "id"
    · simp [primaryIdentifierByNameMatch, h]
    · simp [primaryIdentifierByNameMatch, h]
  · intro tn ty rc dc
    have hval : pyLower "validity" = "validity" := rfl
    simp only [primaryIdentifierByNameMatch, hval]
    rw [if_neg (by decide)]
    simp only [decide_eq_false_iff_not, not_or]
    exact ⟨validity_ne_append_last_d _ _ rfl, validity_ne_append_last_d _ _ rfl⟩

/-- C8: for every table of the context,
`PrimaryTimeDimensionIfOnlyTimeRule` emits exactly one definitive
`DIMENSION.PRIMARY_TIME` signal with `FOR_SURE` confidence for the unique
`DATETIME` column when the table has exactly one, and that signal reaches
the rule's output; a table with zero or two-plus `DATETIME` columns
contributes no signal at all. -/
theorem primary_time_if_only_time_signals (ctx : DataWarehouseInferenceContext)
    (tp : TableProperties) (hmem : tp ∈ ctx.tables) :
    (∀ c : ColumnReference, tableTimeColumns tp = [c] →
        primaryTimeIfOnlyTimeTableSignals tp =
            [{ column := c
               type_node := InferenceSignalNode.DIMENSION_PRIMARY_TIME
               confidence := InferenceSignalConfidence.FOR_SURE
               is_complimentary := false
               reason := "The column is the only time column in its table" }] ∧
          ({ column := c
             type_node := InferenceSignalNode.DIMENSION_PRIMARY_TIME
             confidence := InferenceSignalConfidence.FOR_SURE
             is_complimentary := false
             reason := "The column is the only time column in its table" } : InferenceSignal)
            ∈ primaryTimeIfOnlyTimeProcess ctx) ∧
      ((tableTimeColumns tp).length ≠ 1 → primaryTimeIfOnlyTimeTableSignals tp = []) := by
  constructor
  · intro c hc
    have hsig : primaryTimeIfOnlyTimeTableSignals tp =
        [{ column := c
           type_node := InferenceSignalNode.DIMENSION_PRIMARY_TIME
           confidence := InferenceSignalConfidence.FOR_SURE
           is_complimentary := false
           reason := "The column is the only time column in its table" }] := by
      simp [primaryTimeIfOnlyTimeTableSignals, hc]
    refine ⟨hsig, ?_⟩
    unfold primaryTimeIfOnlyTimeProcess
    rw [List.mem_flatMap]
    exact ⟨tp, hmem, by rw [hsig]; exact List.mem_singleton.mpr rfl⟩
  · intro hlen
    rcases hl : tableTimeColumns tp with _ | ⟨c1, _ | ⟨c2, rest⟩⟩
    · simp [primaryTimeIfOnlyTimeTableSignals, hl]
    · exact absurd (by rw [hl]; rfl) hlen
    · simp [primaryTimeIfOnlyTimeTableSignals, hl]

/-- Witness for C8: a one-table context whose table `orders` holds exactly
one `DATETIME` column `ds` (plus a `STRING` column), on which the rule emits
exactly the primary-time signal for `ds`. -/
theorem primary_time_if_only_time_signals_witness :
    primaryTimeIfOnlyTimeTableSignals
        { columns :=
          [({ table_name := "orders", column_name := "ds" },
            { column := { table_name := "orders", column_name := "ds" }
              type := InferenceColumnType.DATETIME
              row_count := some 10
              distinct_row_count := some 5 }),
           ({ table_name := "orders", column_name := "status" },
            { column := { table_name := "orders", column_name := "status" }
              type := InferenceColumnType.STRING
              row_count := some 10
              distinct_row_count := some 2 })] } =
        [{ column := { table_name := "orders", column_name := "ds" }
           type_node := InferenceSignalNode.DIMENSION_PRIMARY_TIME
           confidence := InferenceSignalConfidence.FOR_SURE
           is_complimentary := false
           reason := "The column is the only time column in its table" }] ∧
      ({ column := { table_name := "orders", column_name := "ds" }
         type_node := InferenceSignalNode.DIMENSION_PRIMARY_TIME
         confidence := InferenceSignalConfidence.FOR_SURE
         is_complimentary := false
         reason := "The column is the only time column in its table" } : InferenceSignal)
        ∈ primaryTimeIfOnlyTimeProcess
          { tables :=
            [{ columns :=
              [({ table_name := "orders", column_name := "ds" },
                { column := { table_name := "orders", column_name := "ds" }
                  type := InferenceColumnType.DATETIME
                  row_count := some 10
                  distinct_row_count := some 5 }),
               ({ table_name := "orders", column_name := "status" },
                { column := { table_name := "orders", column_name := "status" }
                  type := InferenceColumnType.STRING
                  row_count := some 10
                  distinct_row_count := some 2 })] }] } :=
  (primary_time_if_only_time_signals _ _ (by decide)).1
    { table_name := "orders", column_name := "ds" } (by decide)

/-- Helper: a column whose properties satisfy a matcher rule's predicate
receives the rule's signal in the output of `ColumnMatcherRule.process`. -/
theorem mem_columnMatcherProcess {tn : InferenceSignalNode}
    {conf : InferenceSignalConfidence} {compl : Bool} {reason : String}
    {matcher : ColumnProperties → Bool} {ctx : DataWarehouseInferenceContext}
    {c : ColumnReference} {props : ColumnProperties}
    (hmem : (c, props) ∈ ctx.columns) (hmatch : matcher props = true) :
    ({ column := c, type_node := tn, confidence := conf,
       is_complimentary := compl, reason := reason } : InferenceSignal)
      ∈ columnMatcherProcess tn conf compl reason matcher ctx := by
  dsimp only [columnMatcherProcess]
  have h1 : (c, props) ∈ ctx.columns.filter (fun p => matcher p.2) :=
    List.mem_filter.mpr ⟨hmem, hmatch⟩
  have h2 : c ∈ (ctx.columns.filter (fun p => matcher p.2)).map Prod.fst :=
    List.mem_map.mpr ⟨(c, props), h1, rfl⟩
  exact List.mem_map.mpr ⟨c, h2, rfl⟩

/-- C10: under `DEFAULT_RULESET`, every column declared `INTEGER` receives
both MEDIUM-confidence complimentary signals — `DIMENSION.CATEGORICAL` from
`CategoricalDimensionByIntegerTypeRule` and `MEASURE.UNKNOWN` from
`MeasureByIntegerTypeRule` — and the two signalled types mutually
conflict. -/
theorem integer_column_receives_dual_conflicting_signals
    (ctx : DataWarehouseInferenceContext) (c : ColumnReference)
    (props : ColumnProperties) (hmem : (c, props) ∈ ctx.columns)
    (hty : props.type = InferenceColumnType.INTEGER) :
    ({ column := c
       type_node := InferenceSignalNode.DIMENSION_CATEGORICAL
       confidence := InferenceSignalConfidence.MEDIUM
       is_complimentary := true
       reason := "Column type is INTEGER" } : InferenceSignal) ∈ defaultRulesetRun ctx ∧
      ({ column := c
         type_node := InferenceSignalNode.MEASURE_UNKNOWN
         confidence := InferenceSignalConfidence.MEDIUM
         is_complimentary := true
         reason := "Column type is INTEGER" } : InferenceSignal) ∈ defaultRulesetRun ctx ∧
      nodeConflict InferenceSignalNode.DIMENSION_CATEGORICAL
          InferenceSignalNode.MEASURE_UNKNOWN = true := by
  have hcat :
      ({ column := c
         type_node := InferenceSignalNode.DIMENSION_CATEGORICAL
         confidence := InferenceSignalConfidence.MEDIUM
         is_complimentary := true
         reason := "Column type is INTEGER" } : InferenceSignal)
        ∈ categoricalDimensionByIntegerTypeProcess ctx :=
    mem_columnMatcherProcess hmem
      (by simp [categoricalDimensionByIntegerTypeMatch, hty])
  have hmeas :
      ({ column := c
         type_node := InferenceSignalNode.MEASURE_UNKNOWN
         confidence := InferenceSignalConfidence.MEDIUM
         is_complimentary := true
         reason := "Column type is INTEGER" } : InferenceSignal)
        ∈ measureByIntegerTypeProcess ctx :=
    mem_columnMatcherProcess hmem (by simp [measureByIntegerTypeMatch, hty])
  refine ⟨?_, ?_, by decide⟩
  · simp only [defaultRulesetRun, List.mem_append]
    tauto
  · simp only [defaultRulesetRun, List.mem_append]
    tauto

/-- Witness for C10: a one-table context whose single column `quantity` is
declared `INTEGER`; the default ruleset run contains both conflicting
MEDIUM complimentary signals for it. -/
theorem integer_column_receives_dual_conflicting_signals_witness :
    ({ column := { table_name := "orders", column_name := "quantity" }
       type_node := InferenceSignalNode.DIMENSION_CATEGORICAL
       confidence := InferenceSignalConfidence.MEDIUM
       is_complimentary := true
       reason := "Column type is INTEGER" } : InferenceSignal)
      ∈ defaultRulesetRun
        { tables :=
          [{ columns :=
            [({ table_name := "orders", column_name := "quantity" },
              { column := { table_name := "orders", column_name := "quantity" }
                type := InferenceColumnType.INTEGER
                row_count := some 10
                distinct_row_count := some 7 })] }] } ∧
      ({ column := { table_name := "orders", column_name := "quantity" }
         type_node := InferenceSignalNode.MEASURE_UNKNOWN
         confidence := InferenceSignalConfidence.MEDIUM
         is_complimentary := true
         reason := "Column type is INTEGER" } : InferenceSignal)
        ∈ defaultRulesetRun
          { tables :=
            [{ columns :=
              [({ table_name := "orders", column_name := "quantity" },
                { column := { table_name := "orders", column_name := "quantity" }
                  type := InferenceColumnType.INTEGER
                  row_count := some 10
                  distinct_row_count := some 7 })] }] } ∧
      nodeConflict InferenceSignalNode.DIMENSION_CATEGORICAL
          InferenceSignalNode.MEASURE_UNKNOWN = true :=
  integer_column_receives_dual_conflicting_signals _
    { table_name := "orders", column_name := "quantity" }
    { column := { table_name := "orders", column_name := "quantity" }
      type := InferenceColumnType.INTEGER
      row_count := some 10
      distinct_row_count := some 7 } (by decide) rfl

/-- Helper: a list containing two signals whose types conflict is not
pairwise compatible. -/
theorem allPairwiseCompatible_eq_false {s1 s2 : InferenceSignal}
    (hconf : nodeConflict s1.type_node s2.type_node = true)
    (l : List InferenceSignal) (h1 : s1 ∈ l) (h2 : s2 ∈ l) :
    allPairwiseCompatible l = false := by
  cases hval : allPairwiseCompatible l with
  | false => rfl
  | true =>
    exfalso
    have ha := List.all_eq_true.mp hval s1 h1
    have hb := List.all_eq_true.mp ha s2 h2
    have hb2 : (!nodeConflict s1.type_node s2.type_node) = true := hb
    rw [hconf] at hb2
    simp at hb2

/-- C4: whenever a column's signals contain two conflicting definitive
signals of equal confidence which is the top confidence among the column's
definitive signals, the resolver leaves the column unresolved and still
reports the full signal list; since the statement quantifies over every
signal list, the conclusion is independent of signal order. -/
theorem equally_confident_conflicting_definitive_unresolved
    (signals : List InferenceSignal) (s1 s2 : InferenceSignal)
    (hs1 : s1 ∈ signals) (hs2 : s2 ∈ signals)
    (hd1 : s1.is_complimentary = false) (hd2 : s2.is_complimentary = false)
    (hconf : nodeConflict s1.type_node s2.type_node = true)
    (heq : s1.confidence = s2.confidence)
    (htop : ∀ d ∈ signals, d.is_complimentary = false →
      confLe d.confidence s1.confidence = true) :
    (resolveColumn signals).type_node = none ∧
      (resolveColumn signals).signals = signals := by
  have hs1d : s1 ∈ signals.filter (fun s => !s.is_complimentary) :=
    List.mem_filter.mpr ⟨hs1, by simp [hd1]⟩
  have hs2d : s2 ∈ signals.filter (fun s => !s.is_complimentary) :=
    List.mem_filter.mpr ⟨hs2, by simp [hd2]⟩
  have hne : (signals.filter (fun s => !s.is_complimentary)).isEmpty = false := by
    cases hl : signals.filter (fun s => !s.is_complimentary) with
    | nil => exact absurd (hl ▸ hs1d) (List.not_mem_nil s1)
    | cons a as => rfl
  have halltop : ∀ s ∈ signals.filter (fun s => !s.is_complimentary),
      confLe s.confidence s1.confidence = true := by
    intro d hd
    have hmem := List.mem_filter.mp hd
    refine htop d hmem.1 ?_
    have := hmem.2
    simpa using this
  have hs1t : s1 ∈ highestConfidenceSignals (signals.filter (fun s => !s.is_complimentary)) := by
    refine List.mem_filter.mpr ⟨hs1d, ?_⟩
    show (signals.filter (fun s => !s.is_complimentary)).all
        (fun d => confLe d.confidence s1.confidence) = true
    exact List.all_eq_true.mpr halltop
  have hs2t : s2 ∈ highestConfidenceSignals (signals.filter (fun s => !s.is_complimentary)) := by
    refine List.mem_filter.mpr ⟨hs2d, ?_⟩
    show (signals.filter (fun s => !s.is_complimentary)).all
        (fun d => confLe d.confidence s2.confidence) = true
    rw [← heq]
    exact List.all_eq_true.mpr halltop
  have hA : allPairwiseCompatible (signals.filter (fun s => !s.is_complimentary)) = false :=
    allPairwiseCompatible_eq_false hconf _ hs1d hs2d
  have hB : allPairwiseCompatible
      (highestConfidenceSignals (signals.filter (fun s => !s.is_complimentary))) = false :=
    allPairwiseCompatible_eq_false hconf _ hs1t hs2t
  have hres : resolveColumn signals =
      { type_node := none, confidence := none, signals := signals } := by
    simp only [resolveColumn, hne, hA, hB, Bool.false_eq_true, if_false]
  rw [hres]
  exact ⟨rfl, rfl⟩

/-- A definitive `ID.PRIMARY` signal at `FOR_SURE` confidence, used to
exercise the resolver on equally-confident conflicting evidence. -/
def conflictingSignalA : InferenceSignal :=
  { column := { table_name := "t", column_name := "c" }
    type_node := InferenceSignalNode.ID_PRIMARY
    confidence := InferenceSignalConfidence.FOR_SURE
    is_complimentary := false
    reason := "Column name matches `(table_name?)(_?)id`" }

/-- A definitive `MEASURE.UNKNOWN` signal at `FOR_SURE` confidence for the
same column as `conflictingSignalA`, conflicting with it. -/
def conflictingSignalB : InferenceSignal :=
  { column := { table_name := "t", column_name := "c" }
    type_node := InferenceSignalNode.MEASURE_UNKNOWN
    confidence := InferenceSignalConfidence.FOR_SURE
    is_complimentary := false
    reason := "Column type is real (FLOAT, DOUBLE, DOUBLE PRECISION)" }

/-- Witness for C4: two conflicting definitive `FOR_SURE` signals for one
column (`ID.PRIMARY` versus `MEASURE.UNKNOWN`) leave the column unresolved
with both signals reported. -/
theorem equally_confident_conflicting_definitive_unresolved_witness :
    (resolveColumn [conflictingSignalA, conflictingSignalB]).type_node = none ∧
      (resolveColumn [conflictingSignalA, conflictingSignalB]).signals
        = [conflictingSignalA, conflictingSignalB] :=
  equally_confident_conflicting_definitive_unresolved
    [conflictingSignalA, conflictingSignalB] conflictingSignalA conflictingSignalB
    (by decide) (by decide) rfl rfl (by decide) rfl (by decide)

end Metricflow
